import Mathlib

/-!
# Verification of the `cells-json` universal serializer

Shallow embedding of `src/cells/json/serializer.py`, `src/cells/json/exceptions.py`
and `src/cells/json/adapter.py`.

Modelling conventions:

* A Python object graph is a `Heap`: a list of `Node`s indexed by `Nat`
  references, so object identity (`id(obj)`) is the reference and cyclic
  graphs are representable.
* Machine floats carry no claim-relevant arithmetic here, so `float` values
  (and `Decimal`/`timedelta.total_seconds()` results) are carried as `Rat`
  and their textual rendering is abstracted by `floatRepr`.
* Python recursion is modelled by a fuel parameter consumed once per
  recursive call; fuel exhaustion is `PyErr.recursionErr`, the embedding of
  Python's `RecursionError` (which is not a `TypeError` and therefore not a
  `JSONSerializationError`).
* The environment is fixed to one without numpy and pandas installed
  (`HAS_NUMPY = HAS_PANDAS = False` in serializer.py), and the value
  universe contains no object whose class module is `"numpy"`, so the numpy
  and pandas dispatch branches (serializer.py lines 267-276) are vacuous
  and omitted.
* The serializer's traversal context `self._seen : Set[int]` is threaded
  explicitly as a `List Nat` of object identities; `set.add` appends (it is
  only executed after a negative membership test) and `set.discard` is
  `List.erase`.
-/

namespace CellsJson

/-- Scalar Python values, used both for dict keys and for `Enum.value`
payloads (the spec's "enumerated constant (with an underlying scalar
value)"). -/
inductive PyKey where
  | noneK : PyKey
  | boolK : Bool → PyKey
  | intK : Int → PyKey
  | floatK : Rat → PyKey
  | strK : String → PyKey
deriving DecidableEq, Repr

/-- Description of an opaque user-defined object as probed by
`UniversalSerializer._serialize_object` (serializer.py lines 179-224):
an optional `to_dict()` capability (the field holds the reference of the
value the call returns), an optional `__dict__` attribute table, and an
optional `__slots__` declaration where each slot may or may not have a
value bound (`hasattr(obj, slot)`). -/
structure ObjDesc where
  typeName : String
  toDict : Option Nat
  dictAttrs : Option (List (String × Nat))
  slots : Option (List (String × Option Nat))
deriving DecidableEq, Repr

/-- One Python value of the input universe, with compound values holding
heap references so that cyclic object graphs exist in the model. -/
inductive Node where
  | pyNone : Node
  | pyBool : Bool → Node
  | pyInt : Int → Node
  | pyFloat : Rat → Node
  | pyStr : String → Node
  | pyDatetime : String → String → Node  -- date part and time part of isoformat()
  | pyDate : String → Node               -- isoformat()
  | pyTime : String → Node               -- isoformat()
  | pyTimedelta : Rat → Node             -- total_seconds()
  | pyDecimal : Rat → Node               -- float(obj)
  | pyUUID : String → Node               -- str(obj)
  | pyEnum : String → PyKey → Node       -- type name, obj.value
  | pyPath : String → Node               -- obj.as_posix()
  | pyDict : List (PyKey × Nat) → Node
  | pyList : List Nat → Node
  | pyTuple : List Nat → Node
  | pySet : List Nat → Node              -- one iteration order of the set
  | pyFrozenset : List Nat → Node        -- NOT an instance of `set` in Python
  | pyObj : ObjDesc → Node
deriving DecidableEq, Repr

/-- A Python object graph: nodes indexed by identity. Out-of-range
references never occur in the heaps considered; `getD` defaults to
`pyNone` to stay total. -/
structure Heap where
  nodes : List Node
deriving Repr

def Heap.node (h : Heap) (r : Nat) : Node :=
  h.nodes.getD r .pyNone

/-- Python `type(obj).__name__` for each value of the universe. -/
def Node.pyTypeName : Node → String
  | .pyNone => "NoneType"
  | .pyBool _ => "bool"
  | .pyInt _ => "int"
  | .pyFloat _ => "float"
  | .pyStr _ => "str"
  | .pyDatetime _ _ => "datetime"
  | .pyDate _ => "date"
  | .pyTime _ => "time"
  | .pyTimedelta _ => "timedelta"
  | .pyDecimal _ => "Decimal"
  | .pyUUID _ => "UUID"
  | .pyEnum t _ => t
  | .pyPath _ => "PosixPath"
  | .pyDict _ => "dict"
  | .pyList _ => "list"
  | .pyTuple _ => "tuple"
  | .pySet _ => "set"
  | .pyFrozenset _ => "frozenset"
  | .pyObj o => o.typeName

/-- The error taxonomy of `src/cells/json/exceptions.py` plus Python's
`RecursionError`. `serializationErr` is the base `JSONSerializationError`
(a `TypeError` subclass) carrying the offending object and an optional
explicit message; `circularErr` is `CircularReferenceError`;
`unsupportedErr` is `UnsupportedTypeError` (declared in exceptions.py but
never raised by serializer.py); `typeErr` is a plain `TypeError` raised by
an encoding backend; `recursionErr` is `RecursionError`, which is not a
`TypeError`. -/
inductive PyErr where
  | serializationErr : Nat → Option String → PyErr
  | circularErr : Nat → String → PyErr
  | unsupportedErr : Nat → String → PyErr
  | typeErr : String → PyErr
  | recursionErr : PyErr
deriving DecidableEq, Repr

/-- The test `isinstance(e, JSONSerializationError)`: true for the base class and its
two subclasses, false for a plain backend `TypeError` and for
`RecursionError`. -/
def PyErr.isJSONSerializationError : PyErr → Bool
  | .serializationErr _ _ => true
  | .circularErr _ _ => true
  | .unsupportedErr _ _ => true
  | .typeErr _ => false
  | .recursionErr => false

/-- The test `isinstance(e, (TypeError, ValueError))`, the catch clause of
`UniversalSerializer.dumps` (serializer.py line 323): every modelled error
except `RecursionError` is a `TypeError`. -/
def PyErr.isTypeOrValueError : PyErr → Bool
  | .recursionErr => false
  | _ => true

/-- Python `str(e)` for each error, per the message synthesis in exceptions.py
(lines 20-25, 42-47, 62-67). -/
def errMessage (h : Heap) : PyErr → String
  | .serializationErr r none =>
      "Object of type " ++ (h.node r).pyTypeName ++ " is not JSON serializable"
  | .serializationErr _ (some m) => m
  | .circularErr r path =>
      "Circular reference detected for object of type " ++ (h.node r).pyTypeName
        ++ (if path = "" then "" else " at path: " ++ path)
  | .unsupportedErr r hint =>
      "Unsupported type: " ++ (h.node r).pyTypeName
        ++ (if hint = "" then "" else ". " ++ hint)
  | .typeErr m => m
  | .recursionErr => "maximum recursion depth exceeded"

/-- The Python value `_serialize` returns. Scalars, fresh lists and fresh
dicts are built by the serializer; `vRaw r` is a heap value returned
verbatim without conversion (the non-dict `to_dict()` result of
serializer.py line 208, or a fallback result). -/
inductive PyOut where
  | vNone : PyOut
  | vBool : Bool → PyOut
  | vInt : Int → PyOut
  | vFloat : Rat → PyOut
  | vStr : String → PyOut
  | vList : List PyOut → PyOut
  | vDict : List (PyKey × PyOut) → PyOut
  | vRaw : Nat → PyOut
deriving Repr

def PyKey.isStr : PyKey → Bool
  | .strK _ => true
  | _ => false

/-- Membership in the JSON-tree universe of the spec (section 3): null,
boolean, number, string, ordered sequence of JSON-tree values, or
string-keyed mapping of JSON-tree values. A `vRaw` value is an
unconverted domain value escaping to the encoder and is not in the
universe (every `vRaw` produced in this development wraps a non-scalar
heap node, see `reflect`). -/
def PyOut.isJsonTree : PyOut → Bool
  | .vNone => true
  | .vBool _ => true
  | .vInt _ => true
  | .vFloat _ => true
  | .vStr _ => true
  | .vList [] => true
  | .vList (x :: xs) => x.isJsonTree && (PyOut.vList xs).isJsonTree
  | .vDict [] => true
  | .vDict ((k, v) :: es) => k.isStr && v.isJsonTree && (PyOut.vDict es).isJsonTree
  | .vRaw _ => false

/-- The `PyOut` view of a scalar key (`Enum.value` is returned by
`_serialize_enum` without further conversion; a scalar converts to
itself). -/
def PyKey.toOut : PyKey → PyOut
  | .noneK => .vNone
  | .boolK b => .vBool b
  | .intK n => .vInt n
  | .floatK x => .vFloat x
  | .strK s => .vStr s

/-- The policy of `UniversalSerializer.__init__` (serializer.py lines
54-72): the optional fallback `default` function (its result is a Python
value, possibly one escaping unconverted), `strict`, `ignore_unknown` and
`fail_on_circular`. -/
structure Config where
  default : Option (Nat → PyOut)
  strict : Bool
  ignore_unknown : Bool
  fail_on_circular : Bool

/-- The statement `return result` for a non-dict `to_dict()` result (serializer.py line
208): the Python value is returned as-is. A scalar coincides with its
JSON-tree counterpart; any other value escapes unconverted (`vRaw`). -/
def reflect (h : Heap) (r : Nat) : PyOut :=
  match h.node r with
  | .pyNone => .vNone
  | .pyBool b => .vBool b
  | .pyInt n => .vInt n
  | .pyFloat x => .vFloat x
  | .pyStr s => .vStr s
  | _ => .vRaw r

/-- The probe `hasattr(obj, "to_dict") and callable(obj.to_dict)`: the reference of
the value `obj.to_dict()` returns, when the capability exists. Only opaque
objects expose it; a `frozenset` (which reaches `_serialize_object`
because it is not an instance of `set`) has no such attribute. -/
def toDictCap : Node → Option Nat
  | .pyObj o => o.toDict
  | _ => none

/-- The probe `hasattr(obj, "__dict__")` with the attribute table. -/
def dunderDictCap : Node → Option (List (String × Nat))
  | .pyObj o => o.dictAttrs
  | _ => none

/-- The probe `hasattr(obj, "__slots__")` with the declared slots; `none` in the
second component of an entry models a slot name for which
`hasattr(obj, slot)` is false. -/
def slotsCap : Node → Option (List (String × Option Nat))
  | .pyObj o => o.slots
  | _ => none

/-- Whether a value reaches the generic-object rule of `_serialize`
(serializer.py lines 288-298): every category with no earlier isinstance
branch, i.e. opaque objects and `frozenset` (which is not an instance of
`set`). -/
def objGate : Node → Bool
  | .pyObj _ => true
  | .pyFrozenset _ => true
  | _ => false

/-- The test `isinstance(obj, datetime)`. -/
def isDatetimeInst : Node → Bool
  | .pyDatetime _ _ => true
  | _ => false

/-- The test `isinstance(obj, date)`: in Python `datetime` is a subclass of `date`,
so a temporal instant also satisfies this test; serializer.py therefore
tests `datetime` first (line 242 before line 244). -/
def isDateInst : Node → Bool
  | .pyDatetime _ _ => true
  | .pyDate _ => true
  | _ => false

/-- Method `UniversalSerializer._serialize_datetime` (serializer.py lines 74-80):
`obj.isoformat()`, the ISO-8601 combined form `date + "T" + time`. -/
def serializeDatetime : Node → String
  | .pyDatetime d t => d ++ "T" ++ t
  | _ => ""

/-- Method `UniversalSerializer._serialize_date` (serializer.py lines 82-88):
`obj.isoformat()`, dispatched on the runtime type — on an actual
`datetime` this method would still return the combined form. -/
def serializeDate : Node → String
  | .pyDate d => d
  | .pyDatetime d t => d ++ "T" ++ t
  | _ => ""

/-- One list-comprehension step of `[self._serialize(item) for item in
obj]`: serialize elements left to right, abort at the first raised error,
threading the seen-set state. `f` is the recursive serializer at the
remaining recursion budget. -/
def mapSerialize (f : List Nat → Nat → (Except PyErr PyOut) × List Nat) :
    List Nat → List Nat → (Except PyErr (List PyOut)) × List Nat
  | seen, [] => (.ok [], seen)
  | seen, r :: rest =>
    match f seen r with
    | (.error e, seen') => (.error e, seen')
    | (.ok v, seen') =>
      match mapSerialize f seen' rest with
      | (.error e, seen'') => (.error e, seen'')
      | (.ok vs, seen'') => (.ok (v :: vs), seen'')

/-- The dict comprehension `{k: self._serialize(v) for k, v in ...}`: keys
are passed through unchanged, values are serialized left to right with
abort at the first raised error. -/
def mapSerializeKV (f : List Nat → Nat → (Except PyErr PyOut) × List Nat) :
    List Nat → List (PyKey × Nat) → (Except PyErr (List (PyKey × PyOut))) × List Nat
  | seen, [] => (.ok [], seen)
  | seen, (k, r) :: rest =>
    match f seen r with
    | (.error e, seen') => (.error e, seen')
    | (.ok v, seen') =>
      match mapSerializeKV f seen' rest with
      | (.error e, seen'') => (.error e, seen'')
      | (.ok vs, seen'') => (.ok ((k, v) :: vs), seen'')

/-- Serializing the values of a key-value list and returning the rebuilt
dict (`return {k: self._serialize(v) for k, v in ...}`). -/
def serializeDictItems (f : List Nat → Nat → (Except PyErr PyOut) × List Nat)
    (seen : List Nat) (es : List (PyKey × Nat)) : (Except PyErr PyOut) × List Nat :=
  match mapSerializeKV f seen es with
  | (.error e, s) => (.error e, s)
  | (.ok outs, s) => (.ok (.vDict outs), s)

/-- Serializing the elements of a list/tuple/set and returning the
rebuilt list (`return [self._serialize(item) for item in obj]`). -/
def serializeListItems (f : List Nat → Nat → (Except PyErr PyOut) × List Nat)
    (seen : List Nat) (es : List Nat) : (Except PyErr PyOut) × List Nat :=
  match mapSerialize f seen es with
  | (.error e, s) => (.error e, s)
  | (.ok outs, s) => (.ok (.vList outs), s)

/-- Method `UniversalSerializer._serialize_object` (serializer.py lines 179-224),
with the recursive serializer passed in as `f`. In order: the cycle check
on `id(obj)` against `self._seen` (raise `CircularReferenceError` under
`fail_on_circular`, else return the marker string `"<CircularReference
{TypeName}>"`); `self._seen.add(obj_id)`; then inside `try`: the
`to_dict()` capability (a dict result has its values serialized, any
other result is returned as-is), else `__dict__`, else `__slots__`
(slots without a bound value are skipped), else raise the base
`JSONSerializationError(obj)`; and in `finally`,
`self._seen.discard(obj_id)` on every exit path. -/
def serializeObject (h : Heap) (cfg : Config)
    (f : List Nat → Nat → (Except PyErr PyOut) × List Nat)
    (seen : List Nat) (r : Nat) : (Except PyErr PyOut) × List Nat :=
  if r ∈ seen then
    if cfg.fail_on_circular then
      (.error (.circularErr r ""), seen)
    else
      (.ok (.vStr ("<CircularReference " ++ (h.node r).pyTypeName ++ ">")), seen)
  else
    let seen1 := r :: seen
    let body : (Except PyErr PyOut) × List Nat :=
      match toDictCap (h.node r) with
      | some rd =>
        match h.node rd with
        | .pyDict es => serializeDictItems f seen1 es
        | _ => (.ok (reflect h rd), seen1)
      | none =>
        match dunderDictCap (h.node r) with
        | some attrs =>
          serializeDictItems f seen1 (attrs.map fun kv => (PyKey.strK kv.1, kv.2))
        | none =>
          match slotsCap (h.node r) with
          | some ss =>
            serializeDictItems f seen1
              (ss.filterMap fun kv => kv.2.map fun v => (PyKey.strK kv.1, v))
          | none => (.error (.serializationErr r none), seen1)
    (body.1, body.2.erase r)

/-- The `try/except JSONSerializationError` handler wrapped around the
`self._serialize_object(obj)` call (serializer.py lines 289-298): the
policy chain `strict` → re-raise, else `ignore_unknown` → None, else a
configured `default` fallback applied to the original value with its
result used verbatim, else re-raise. It catches every
`JSONSerializationError` — the `CircularReferenceError` subclass
included — but not a `RecursionError`. -/
def applyPolicy (cfg : Config) (r : Nat) :
    (Except PyErr PyOut) × List Nat → (Except PyErr PyOut) × List Nat
  | (.error e, s) =>
    if e.isJSONSerializationError then
      if cfg.strict then (.error e, s)
      else if cfg.ignore_unknown then (.ok .vNone, s)
      else
        match cfg.default with
        | some fb => (.ok (fb r), s)
        | none => (.error e, s)
    else (.error e, s)
  | res => res

/-- Method `UniversalSerializer._serialize` (serializer.py lines 226-298). Fuel is
consumed once per call; dispatch follows the source's isinstance cascade:
None; (str, int, float, bool) pass-through; datetime before date (datetime
is a subclass of date); time; timedelta; Decimal; UUID; Enum; Path; [numpy
and pandas branches vacuous in the modelled environment]; dict; list and
tuple; set (note: `frozenset` is not an instance of `set` and falls
through); and finally the generic-object rule wrapped in
`try/except JSONSerializationError` whose handler is the policy chain
(lines 291-298): `strict` re-raises, else `ignore_unknown` returns None,
else a configured `default` fallback is invoked with the original value
and its result returned verbatim, else re-raise. The chain catches every
`JSONSerializationError`, subclasses included; a `RecursionError` is not
caught. -/
def pySerialize (h : Heap) (cfg : Config) :
    Nat → List Nat → Nat → (Except PyErr PyOut) × List Nat
  | 0 => fun seen _ => (.error .recursionErr, seen)
  | fuel + 1 =>
    let f := pySerialize h cfg fuel
    fun seen r =>
      match h.node r with
      | .pyNone => (.ok .vNone, seen)
      | .pyStr s => (.ok (.vStr s), seen)
      | .pyInt n => (.ok (.vInt n), seen)
      | .pyFloat x => (.ok (.vFloat x), seen)
      | .pyBool b => (.ok (.vBool b), seen)
      | .pyDatetime d t => (.ok (.vStr (serializeDatetime (.pyDatetime d t))), seen)
      | .pyDate d => (.ok (.vStr (serializeDate (.pyDate d))), seen)
      | .pyTime t => (.ok (.vStr t), seen)
      | .pyTimedelta secs => (.ok (.vFloat secs), seen)
      | .pyDecimal x => (.ok (.vFloat x), seen)
      | .pyUUID s => (.ok (.vStr s), seen)
      | .pyEnum _ v => (.ok v.toOut, seen)
      | .pyPath p => (.ok (.vStr p), seen)
      | .pyDict es => serializeDictItems f seen es
      | .pyList es => serializeListItems f seen es
      | .pyTuple es => serializeListItems f seen es
      | .pySet es => serializeListItems f seen es
      | .pyFrozenset _ => applyPolicy cfg r (serializeObject h cfg f seen r)
      | .pyObj _ => applyPolicy cfg r (serializeObject h cfg f seen r)

/-! ## The encoding backends and the adapter

`UniversalSerializer.dumps` hands the top-level value to `json.dumps` with
`default=self.default` and `check_circular=False` (serializer.py lines
310-324); `JSONAdapter` (adapter.py) routes to either the standard
library or orjson. The two backends are external libraries, modelled
operationally with only the behavior the claims depend on: they natively
encode None, bool, int, float, str, dict, list and tuple, call the
`default` hook on anything else and re-encode the hook's result; the
standard library renders with its default separators `", "` and `": "`
and returns `str`, while orjson renders compactly with `","` and `":"`
and returns `bytes` (modelled as the `binary` constructor; the repo's own
`adapter.dumps` docstring documents the `bytes` return). String escaping,
`ensure_ascii` and float formatting are not modelled — no claim depends
on them — and the encoder has no cycle tracking, matching the
`check_circular=False` call. -/

/-- Rendering of a JSON string literal (escaping not modelled). -/
def encStr (s : String) : String := "\"" ++ s ++ "\""

/-- Deterministic rendering of a modelled float; no claim depends on the
concrete digits, only on both backends sharing one rendering. -/
def floatRepr (x : Rat) : String := toString x

/-- Key coercion of the standard encoder: a non-string scalar key is
rendered from its JSON spelling (int via str, True/False as true/false,
None as null, float via repr). -/
def keyStr : PyKey → String
  | .strK s => s
  | .intK n => toString n
  | .boolK b => cond b "true" "false"
  | .noneK => "null"
  | .floatK x => floatRepr x

def joinSep (sep : String) : List String → String
  | [] => ""
  | [s] => s
  | s :: t :: rest => s ++ sep ++ joinSep sep (t :: rest)

/-- Item and key-value separators of a backend profile. -/
structure Sep where
  itemSep : String
  kvSep : String
deriving DecidableEq, Repr

/-- Standard-library `json.dumps` defaults (indent=None): `", "` and `": "`. -/
def stdSep : Sep := ⟨", ", ": "⟩

/-- orjson output is always compact. -/
def compactSep : Sep := ⟨",", ":"⟩

/-- Encode the members of a JSON array left to right, aborting at the
first error, threading the serializer's seen-set. -/
def mapEncode {α : Type} (g : List Nat → α → (Except PyErr String) × List Nat) :
    List Nat → List α → (Except PyErr (List String)) × List Nat
  | seen, [] => (.ok [], seen)
  | seen, v :: rest =>
    match g seen v with
    | (.error e, seen') => (.error e, seen')
    | (.ok s, seen') =>
      match mapEncode g seen' rest with
      | (.error e, seen'') => (.error e, seen'')
      | (.ok ss, seen'') => (.ok (s :: ss), seen'')

/-- Encode the members of a JSON object left to right as
`"key"<kvSep><value>` items. -/
def mapEncodeKV {α : Type} (g : List Nat → α → (Except PyErr String) × List Nat)
    (sep : Sep) :
    List Nat → List (PyKey × α) → (Except PyErr (List String)) × List Nat
  | seen, [] => (.ok [], seen)
  | seen, (k, v) :: rest =>
    match g seen v with
    | (.error e, seen') => (.error e, seen')
    | (.ok s, seen') =>
      match mapEncodeKV g sep seen' rest with
      | (.error e, seen'') => (.error e, seen'')
      | (.ok ss, seen'') => (.ok ((encStr (keyStr k) ++ sep.kvSep ++ s) :: ss), seen'')

/-- Encoding of a value returned by the `default` hook: the backend
re-processes the returned object, so a `vRaw` heap value is encoded like
any other input object (`g`, the reference encoder, which may invoke the
hook again). -/
def encodeOut (g : List Nat → Nat → (Except PyErr String) × List Nat) (sep : Sep) :
    Nat → List Nat → PyOut → (Except PyErr String) × List Nat
  | 0 => fun seen _ => (.error .recursionErr, seen)
  | fuel + 1 =>
    let go := encodeOut g sep fuel
    fun seen v =>
      match v with
      | .vNone => (.ok "null", seen)
      | .vBool b => (.ok (cond b "true" "false"), seen)
      | .vInt n => (.ok (toString n), seen)
      | .vFloat x => (.ok (floatRepr x), seen)
      | .vStr s => (.ok (encStr s), seen)
      | .vList vs =>
        match mapEncode go seen vs with
        | (.error e, s) => (.error e, s)
        | (.ok ss, s) => (.ok ("[" ++ joinSep sep.itemSep ss ++ "]"), s)
      | .vDict es =>
        match mapEncodeKV go sep seen es with
        | (.error e, s) => (.error e, s)
        | (.ok ss, s) => (.ok ("\x7b" ++ joinSep sep.itemSep ss ++ "\x7d"), s)
      | .vRaw r => g seen r

/-- The encoding loop of a backend over the input object graph: native
types are rendered directly; for anything else, with `hook = true` the
serializer's dispatch `UniversalSerializer.default` (that is,
`_serialize`) is invoked and its result re-encoded, and with
`hook = false` (orjson under `use_builtin=True`, no `default` passed) a
plain backend `TypeError` is raised. -/
def pyEncode (h : Heap) (cfg : Config) (sep : Sep) (hook : Bool) :
    Nat → List Nat → Nat → (Except PyErr String) × List Nat
  | 0 => fun seen _ => (.error .recursionErr, seen)
  | fuel + 1 =>
    let go := pyEncode h cfg sep hook fuel
    fun seen r =>
      match h.node r with
      | .pyNone => (.ok "null", seen)
      | .pyBool b => (.ok (cond b "true" "false"), seen)
      | .pyInt n => (.ok (toString n), seen)
      | .pyFloat x => (.ok (floatRepr x), seen)
      | .pyStr s => (.ok (encStr s), seen)
      | .pyDict es =>
        match mapEncodeKV go sep seen es with
        | (.error e, s) => (.error e, s)
        | (.ok ss, s) => (.ok ("\x7b" ++ joinSep sep.itemSep ss ++ "\x7d"), s)
      | .pyList es =>
        match mapEncode go seen es with
        | (.error e, s) => (.error e, s)
        | (.ok ss, s) => (.ok ("[" ++ joinSep sep.itemSep ss ++ "]"), s)
      | .pyTuple es =>
        match mapEncode go seen es with
        | (.error e, s) => (.error e, s)
        | (.ok ss, s) => (.ok ("[" ++ joinSep sep.itemSep ss ++ "]"), s)
      | n =>
        if hook then
          match pySerialize h cfg fuel seen r with
          | (.error e, s) => (.error e, s)
          | (.ok out, s) => encodeOut go sep fuel s out
        else
          (.error (.typeErr ("Type is not JSON serializable: " ++ n.pyTypeName)), seen)

/-- Method `UniversalSerializer.dumps` (serializer.py lines 310-324):
`json.dumps(obj, default=self.default, check_circular=False)` wrapped in
`except (TypeError, ValueError) as e: raise JSONSerializationError(obj,
str(e)) from e` — a fresh base error carrying the top-level input `obj`
and the message `str(e)`. `RecursionError` is not a `TypeError` or
`ValueError` and escapes unwrapped. -/
def pyDumps (h : Heap) (cfg : Config) (fuel : Nat) (r : Nat) : Except PyErr String :=
  match pyEncode h cfg stdSep true fuel [] r with
  | (.ok s, _) => .ok s
  | (.error e, _) =>
    if e.isTypeOrValueError then .error (.serializationErr r (some (errMessage h e)))
    else .error e

/-- The adapter's return value: `str` from the standard library, `bytes`
from orjson (`str | bytes` in adapter.py). A `text` and a `binary` value
are never equal, as a Python `str` never equals a `bytes`. -/
inductive JsonOut where
  | text : String → JsonOut
  | binary : String → JsonOut
deriving DecidableEq, Repr

/-- Backend selection of `JSONAdapter.__init__` (adapter.py lines 56-85):
`None` means `"auto"`; `"auto"` prefers orjson when available; `"json"`
forces the standard library; `"orjson"` fails fast with
`RuntimeError("orjson is not installed")` when unavailable; anything else
is `ValueError`. Returns `self._use_orjson`. -/
def selectBackend (hasOrjson : Bool) (backend : Option String) : Except String Bool :=
  let b := backend.getD "auto"
  if b = "auto" then .ok hasOrjson
  else if b = "json" then .ok false
  else if b = "orjson" then
    if hasOrjson then .ok true else .error "orjson is not installed"
  else .error ("Unsupported backend: " ++ b)

/-- Method `JSONAdapter._json_dumps` (adapter.py lines 99-102): the standard
library with `default=self._serializer.default`, default separators,
`str` output. -/
def adapterJsonDumps (h : Heap) (cfg : Config) (fuel r : Nat) : Except PyErr JsonOut :=
  match pyEncode h cfg stdSep true fuel [] r with
  | (.ok s, _) => .ok (.text s)
  | (.error e, _) => .error e

/-- Method `JSONAdapter._orjson_dumps` (adapter.py lines 104-115): orjson with
the serializer's dispatch as `default` only when `use_builtin` is false;
compact separators, `bytes` output. -/
def adapterOrjsonDumps (h : Heap) (cfg : Config) (use_builtin : Bool)
    (fuel r : Nat) : Except PyErr JsonOut :=
  match pyEncode h cfg compactSep (!use_builtin) fuel [] r with
  | (.ok s, _) => .ok (.binary s)
  | (.error e, _) => .error e

/-- Adapter construction plus `dumps` (adapter.py lines 56-97): the
outer `Except String` is a construction-time `RuntimeError`/`ValueError`
from backend selection. -/
def adapterDumps (hasOrjson : Bool) (backend : Option String) (use_builtin : Bool)
    (h : Heap) (cfg : Config) (fuel r : Nat) :
    Except String (Except PyErr JsonOut) :=
  (selectBackend hasOrjson backend).map fun useOrjson =>
    if useOrjson then adapterOrjsonDumps h cfg use_builtin fuel r
    else adapterJsonDumps h cfg fuel r

/-! ## Side conditions under which the JSON-tree invariant does hold -/

/-- A node does not, by itself, let a raw value escape the serializer:
every mapping key is a string, and a `to_dict()` capability returns
either a mapping (whose values then get serialized) or a scalar (which
coincides with its JSON-tree image). An object whose `to_dict()` returns
any other non-mapping value is returned verbatim by serializer.py line
208 and breaks the invariant. -/
def nodeJsonSafe (h : Heap) : Node → Bool
  | .pyDict es => es.all fun kv => kv.1.isStr
  | .pyObj o =>
    match o.toDict with
    | some rd =>
      match h.node rd with
      | .pyDict es => es.all fun kv => kv.1.isStr
      | .pyNone => true
      | .pyBool _ => true
      | .pyInt _ => true
      | .pyFloat _ => true
      | .pyStr _ => true
      | _ => false
    | none => true
  | _ => true

/-- Every node of the graph is `nodeJsonSafe`. -/
def heapJsonSafe (h : Heap) : Bool := h.nodes.all (nodeJsonSafe h)

/-- Whether a serializer result is a raised `UnsupportedTypeError`. -/
def raisedUnsupported : (Except PyErr PyOut) → Bool
  | .error (.unsupportedErr _ _) => true
  | _ => false

/-- Whether a serializer result is a raised `CircularReferenceError`. -/
def raisedCircular : (Except PyErr PyOut) → Bool
  | .error (.circularErr _ _) => true
  | _ => false

def PyOut.isList : PyOut → Bool
  | .vList _ => true
  | _ => false

/-! ## Concrete object graphs and policies used by the claims -/

/-- The policy with every flag off and no fallback (the defaults of
`UniversalSerializer.__init__`). -/
def cfgD : Config := ⟨none, false, false, false⟩

/-- Policy `strict=True`. -/
def cfgStrict : Config := ⟨none, true, false, false⟩

/-- Policy `ignore_unknown=True`. -/
def cfgIgnore : Config := ⟨none, false, true, false⟩

/-- Policy `fail_on_circular=True` alone. -/
def cfgCirc : Config := ⟨none, false, false, true⟩

/-- Policy `fail_on_circular=True` together with `ignore_unknown=True`. -/
def cfgCircIgnore : Config := ⟨none, false, true, true⟩

/-- Policy `fail_on_circular=True` with a fallback `default` function. -/
def cfgCircFallback : Config := ⟨some fun _ => .vStr "from-fallback", false, false, true⟩

/-- The self-referential mapping `a = {}; a["self"] = a`. -/
def hSelfDict : Heap := ⟨[.pyDict [(.strK "self", 0)]]⟩

/-- An opaque object whose `__dict__` is `{"me": <the object itself>}`:
a true cycle through the generic-object rule. -/
def hSelfObj : Heap := ⟨[.pyObj ⟨"A", none, some [("me", 0)], none⟩]⟩

/-- An object exposing no `to_dict`, no `__dict__` and no `__slots__`
(e.g. an instance of a C-implemented type). -/
def hNoCap : Heap := ⟨[.pyObj ⟨"CustomType", none, none, none⟩]⟩

/-- An object whose `to_dict()` returns a datetime — not a mapping — so
the generic-object rule returns that raw value as-is. -/
def hToDictRaw : Heap := ⟨[.pyObj ⟨"Widget", some 1, none, none⟩,
  .pyDatetime "2024-01-01" "12:00:00"]⟩

/-- A string-keyed mapping of an int: a JSON-safe input. -/
def hSafe : Heap := ⟨[.pyDict [(.strK "x", 1)], .pyInt 3]⟩

/-- A list whose two sibling entries are the same object (same identity),
each with `__dict__ = {"a": 5}`. -/
def hSib : Heap := ⟨[.pyList [1, 1], .pyObj ⟨"P", none, some [("a", 2)], none⟩, .pyInt 5]⟩

/-- Two set values over the same three elements in different iteration
orders. -/
def hSets : Heap := ⟨[.pySet [2, 3, 4], .pySet [4, 2, 3], .pyInt 10, .pyInt 20, .pyInt 30]⟩

/-- The frozenset `frozenset({1, 2, 3})`. -/
def hFrozen : Heap := ⟨[.pyFrozenset [1, 2, 3], .pyInt 1, .pyInt 2, .pyInt 3]⟩

/-- A datetime and a plain date. -/
def hDt : Heap := ⟨[.pyDatetime "2024-01-01" "12:30:45", .pyDate "2024-01-01"]⟩

/-- The mapping `{"a": 1, "b": 2}`. -/
def hAB : Heap := ⟨[.pyDict [(.strK "a", 1), (.strK "b", 2)], .pyInt 1, .pyInt 2]⟩

/-! ## State of the traversal context

`_serialize_object` adds `id(obj)` to `self._seen` only after a negative
membership test and discards it in a `finally`, so every call of the
serializer leaves the seen-set exactly as it found it, on success and on
raised errors alike. -/

theorem mapSerialize_snd (f : List Nat → Nat → (Except PyErr PyOut) × List Nat)
    (hf : ∀ s r, (f s r).2 = s) :
    ∀ (s : List Nat) (es : List Nat), (mapSerialize f s es).2 = s := by
  intro s es
  induction es generalizing s with
  | nil => rfl
  | cons e rest ih =>
    simp only [mapSerialize]
    split
    next e1 s1 heq =>
      have := hf s e
      rw [heq] at this
      simpa using this
    next v s1 heq =>
      have hs1 : s1 = s := by
        have := hf s e
        rw [heq] at this
        exact this
      subst hs1
      split
      next e2 s2 heq2 =>
        have := ih s1
        rw [heq2] at this
        simpa using this
      next vs s2 heq2 =>
        have := ih s1
        rw [heq2] at this
        simpa using this

theorem mapSerializeKV_snd (f : List Nat → Nat → (Except PyErr PyOut) × List Nat)
    (hf : ∀ s r, (f s r).2 = s) :
    ∀ (s : List Nat) (es : List (PyKey × Nat)), (mapSerializeKV f s es).2 = s := by
  intro s es
  induction es generalizing s with
  | nil => rfl
  | cons kv rest ih =>
    rcases kv with ⟨k, r⟩
    simp only [mapSerializeKV]
    split
    next e1 s1 heq =>
      have := hf s r
      rw [heq] at this
      simpa using this
    next v s1 heq =>
      have hs1 : s1 = s := by
        have := hf s r
        rw [heq] at this
        exact this
      subst hs1
      split
      next e2 s2 heq2 =>
        have := ih s1
        rw [heq2] at this
        simpa using this
      next vs s2 heq2 =>
        have := ih s1
        rw [heq2] at this
        simpa using this

theorem serializeDictItems_snd (f : List Nat → Nat → (Except PyErr PyOut) × List Nat)
    (hf : ∀ s r, (f s r).2 = s) :
    ∀ s es, (serializeDictItems f s es).2 = s := by
  intro s es
  simp only [serializeDictItems]
  rcases hm : mapSerializeKV f s es with ⟨res, s2⟩
  have hs2 : s2 = s := by
    have := mapSerializeKV_snd f hf s es
    rw [hm] at this
    exact this
  rcases res with e | outs <;> simpa using hs2

theorem serializeListItems_snd (f : List Nat → Nat → (Except PyErr PyOut) × List Nat)
    (hf : ∀ s r, (f s r).2 = s) :
    ∀ s es, (serializeListItems f s es).2 = s := by
  intro s es
  simp only [serializeListItems]
  rcases hm : mapSerialize f s es with ⟨res, s2⟩
  have hs2 : s2 = s := by
    have := mapSerialize_snd f hf s es
    rw [hm] at this
    exact this
  rcases res with e | outs <;> simpa using hs2

theorem applyPolicy_snd (cfg : Config) (r : Nat)
    (res : (Except PyErr PyOut) × List Nat) : (applyPolicy cfg r res).2 = res.2 := by
  rcases res with ⟨res, s⟩
  rcases res with e | out
  · by_cases h1 : e.isJSONSerializationError <;>
      by_cases h2 : cfg.strict <;>
      by_cases h3 : cfg.ignore_unknown <;>
      rcases hd : cfg.default with _ | fb <;>
      simp [applyPolicy, h1, h2, h3, hd]
  · rfl

theorem serializeObject_snd (h : Heap) (cfg : Config)
    (f : List Nat → Nat → (Except PyErr PyOut) × List Nat)
    (hf : ∀ s r, (f s r).2 = s) :
    ∀ s r, (serializeObject h cfg f s r).2 = s := by
  intro s r
  have hsd := serializeDictItems_snd f hf
  by_cases hmem : r ∈ s
  · by_cases hc : cfg.fail_on_circular <;> simp [serializeObject, hmem, hc]
  · simp only [serializeObject]
    rw [if_neg hmem]
    rcases htd : toDictCap (h.node r) with _ | rd
    · rcases hdd : dunderDictCap (h.node r) with _ | attrs
      · rcases hsl : slotsCap (h.node r) with _ | ss
        · simp [htd, hdd, hsl]
        · simp [htd, hdd, hsl, hsd]
      · simp [htd, hdd, hsd]
    · cases hnd : h.node rd <;> simp [htd, hnd, hsd]

theorem pySerialize_snd (h : Heap) (cfg : Config) :
    ∀ (fuel : Nat) (s : List Nat) (r : Nat), (pySerialize h cfg fuel s r).2 = s := by
  intro fuel
  induction fuel with
  | zero => intro s r; rfl
  | succ fuel ih =>
    intro s r
    have hso := serializeObject_snd h cfg (pySerialize h cfg fuel) ih
    have hsd := serializeDictItems_snd (pySerialize h cfg fuel) ih
    have hsl := serializeListItems_snd (pySerialize h cfg fuel) ih
    have hap : ∀ r', (applyPolicy cfg r' (serializeObject h cfg
        (pySerialize h cfg fuel) s r')).2 = s := by
      intro r'
      rw [applyPolicy_snd]
      exact hso s r'
    cases hn : h.node r <;> simp [pySerialize, hn, hsd, hsl, hap]

/-! ## Pointwise view of element serialization -/

/-- A successful comprehension result is exactly the element-wise result
of the serializer, run at one and the same seen-set (state preservation
makes the intermediate states coincide with the initial one). -/
theorem mapSerialize_ok_map (f : List Nat → Nat → (Except PyErr PyOut) × List Nat)
    (hf : ∀ s r, (f s r).2 = s) :
    ∀ (s : List Nat) (es : List Nat) (outs : List PyOut) (s' : List Nat),
      mapSerialize f s es = (.ok outs, s') →
      List.map Except.ok outs = es.map fun e => (f s e).1 := by
  intro s es
  induction es generalizing s with
  | nil =>
    intro outs s' hm
    simp only [mapSerialize] at hm
    injection hm with h1 h2
    injection h1 with h3
    subst h3
    rfl
  | cons e rest ih =>
    intro outs s' hm
    simp only [mapSerialize] at hm
    split at hm
    next e1 s1 heq => simp at hm
    next v s1 heq =>
      have hs1 : s1 = s := by
        have := hf s e
        rw [heq] at this
        exact this
      subst hs1
      split at hm
      next e2 s2 heq2 => simp at hm
      next vs s2 heq2 =>
        injection hm with h1 h2
        injection h1 with h3
        subst h3
        have hmap := ih s1 vs s2 heq2
        simp only [List.map_cons]
        rw [heq, hmap]

/-! ## The JSON-tree invariant under the safety side conditions -/

theorem nodeJsonSafe_node (h : Heap) (hs : heapJsonSafe h = true) (r : Nat) :
    nodeJsonSafe h (h.node r) = true := by
  unfold Heap.node
  rcases Nat.lt_or_ge r h.nodes.length with hlt | hge
  · rw [List.getD_eq_getElem _ _ hlt]
    unfold heapJsonSafe at hs
    exact List.all_eq_true.mp hs _ (List.getElem_mem hlt)
  · rw [List.getD_eq_default _ _ hge]
    rfl

/-- Keys of a mapping node of a safe heap are strings. -/
theorem dict_keys_safe (h : Heap) (hs : heapJsonSafe h = true) (r : Nat)
    (es : List (PyKey × Nat)) (h1 : h.node r = .pyDict es) :
    ∀ kv ∈ es, PyKey.isStr kv.1 = true := by
  have hn := nodeJsonSafe_node h hs r
  rw [h1] at hn
  simp only [nodeJsonSafe] at hn
  exact fun kv hkv => List.all_eq_true.mp hn kv hkv

/-- In a safe heap, a `to_dict()` result is either a string-keyed mapping
or a scalar whose verbatim return stays inside the JSON universe. -/
theorem toDict_safe (h : Heap) (hs : heapJsonSafe h = true) (r rd : Nat)
    (h1 : toDictCap (h.node r) = some rd) :
    (∀ es, h.node rd = .pyDict es → ∀ kv ∈ es, PyKey.isStr kv.1 = true) ∧
      ((∀ es, h.node rd ≠ .pyDict es) → (reflect h rd).isJsonTree = true) := by
  have hn := nodeJsonSafe_node h hs r
  cases hnr : h.node r <;> rw [hnr] at h1 hn <;> simp only [toDictCap] at h1
  all_goals try exact absurd h1 (by simp)
  case pyObj o =>
    simp only [nodeJsonSafe, h1] at hn
    constructor
    · intro es h2 kv hkv
      rw [h2] at hn
      exact List.all_eq_true.mp hn kv hkv
    · intro hne
      cases hnd : h.node rd <;> rw [hnd] at hn
      case pyDict es => exact absurd hnd (by rw [hnd] at hne; exact fun _ => hne es rfl)
      all_goals first
        | (exact absurd hn Bool.false_ne_true)
        | (simp [reflect, hnd, PyOut.isJsonTree])

theorem pyKey_toOut_json (k : PyKey) : k.toOut.isJsonTree = true := by
  cases k <;> simp [PyKey.toOut, PyOut.isJsonTree]

theorem mapSerializeKV_ok_json (f : List Nat → Nat → (Except PyErr PyOut) × List Nat)
    (hf : ∀ s r out s', f s r = (.ok out, s') → out.isJsonTree = true) :
    ∀ (s : List Nat) (es : List (PyKey × Nat)) (outs : List (PyKey × PyOut)) (s' : List Nat),
      (∀ kv ∈ es, PyKey.isStr kv.1 = true) →
      mapSerializeKV f s es = (.ok outs, s') →
      (PyOut.vDict outs).isJsonTree = true := by
  intro s es
  induction es generalizing s with
  | nil =>
    intro outs s' hk hm
    simp only [mapSerializeKV] at hm
    injection hm with h1 h2
    injection h1 with h3
    subst h3
    simp [PyOut.isJsonTree]
  | cons kv rest ih =>
    rcases kv with ⟨k, r⟩
    intro outs s' hk hm
    simp only [mapSerializeKV] at hm
    split at hm
    next e1 s1 heq => simp at hm
    next v s1 heq =>
      split at hm
      next e2 s2 heq2 => simp at hm
      next vs s2 heq2 =>
        injection hm with h1 h2
        injection h1 with h3
        subst h3
        have hv := hf s r v s1 heq
        have hrest := ih s1 vs s2 (fun kv hkv => hk kv (List.mem_cons_of_mem _ hkv)) heq2
        have hkk := hk (k, r) (List.mem_cons_self _ _)
        simp only [PyOut.isJsonTree]
        simp [hv, hrest, hkk]

theorem mapSerialize_ok_json (f : List Nat → Nat → (Except PyErr PyOut) × List Nat)
    (hf : ∀ s r out s', f s r = (.ok out, s') → out.isJsonTree = true) :
    ∀ (s : List Nat) (es : List Nat) (outs : List PyOut) (s' : List Nat),
      mapSerialize f s es = (.ok outs, s') →
      (PyOut.vList outs).isJsonTree = true := by
  intro s es
  induction es generalizing s with
  | nil =>
    intro outs s' hm
    simp only [mapSerialize] at hm
    injection hm with h1 h2
    injection h1 with h3
    subst h3
    simp [PyOut.isJsonTree]
  | cons e rest ih =>
    intro outs s' hm
    simp only [mapSerialize] at hm
    split at hm
    next e1 s1 heq => simp at hm
    next v s1 heq =>
      split at hm
      next e2 s2 heq2 => simp at hm
      next vs s2 heq2 =>
        injection hm with h1 h2
        injection h1 with h3
        subst h3
        have hv := hf s e v s1 heq
        have hrest := ih s1 vs s2 heq2
        simp only [PyOut.isJsonTree]
        simp [hv, hrest]

theorem serializeDictItems_ok_json (f : List Nat → Nat → (Except PyErr PyOut) × List Nat)
    (hf : ∀ s r out s', f s r = (.ok out, s') → out.isJsonTree = true) :
    ∀ (s : List Nat) (es : List (PyKey × Nat)) (out : PyOut),
      (∀ kv ∈ es, PyKey.isStr kv.1 = true) →
      (serializeDictItems f s es).1 = .ok out →
      out.isJsonTree = true := by
  intro s es out hk hsd
  simp only [serializeDictItems] at hsd
  split at hsd
  next e1 s1 heq => simp at hsd
  next outs s1 heq =>
    injection hsd with h3
    subst h3
    exact mapSerializeKV_ok_json f hf s es outs s1 hk heq

theorem serializeListItems_ok_json (f : List Nat → Nat → (Except PyErr PyOut) × List Nat)
    (hf : ∀ s r out s', f s r = (.ok out, s') → out.isJsonTree = true) :
    ∀ (s : List Nat) (es : List Nat) (out : PyOut),
      (serializeListItems f s es).1 = .ok out →
      out.isJsonTree = true := by
  intro s es out hsd
  simp only [serializeListItems] at hsd
  split at hsd
  next e1 s1 heq => simp at hsd
  next outs s1 heq =>
    injection hsd with h3
    subst h3
    exact mapSerialize_ok_json f hf s es outs s1 heq

theorem serializeObject_ok_json (h : Heap) (cfg : Config)
    (f : List Nat → Nat → (Except PyErr PyOut) × List Nat)
    (hs : heapJsonSafe h = true)
    (hf : ∀ s r out s', f s r = (.ok out, s') → out.isJsonTree = true) :
    ∀ (s : List Nat) (r : Nat) (out : PyOut),
      (serializeObject h cfg f s r).1 = .ok out → out.isJsonTree = true := by
  intro s r out hso
  simp only [serializeObject] at hso
  by_cases hmem : r ∈ s
  · rw [if_pos hmem] at hso
    by_cases hc : cfg.fail_on_circular
    · rw [if_pos hc] at hso
      simp at hso
    · rw [if_neg hc] at hso
      injection hso with h3
      subst h3
      simp [PyOut.isJsonTree]
  · rw [if_neg hmem] at hso
    split at hso
    next rd heq =>
      split at hso
      next es heq2 =>
        exact serializeDictItems_ok_json f hf (r :: s) es out
          ((toDict_safe h hs r rd heq).1 es heq2) hso
      next hne =>
        injection hso with h3
        subst h3
        exact (toDict_safe h hs r rd heq).2 hne
    next heq =>
      split at hso
      next attrs heq2 =>
        refine serializeDictItems_ok_json f hf (r :: s) _ out ?_ hso
        intro kv hkv
        obtain ⟨⟨a, v⟩, ha, rfl⟩ := List.mem_map.mp hkv
        rfl
      next heq2 =>
        split at hso
        next ss heq3 =>
          refine serializeDictItems_ok_json f hf (r :: s) _ out ?_ hso
          intro kv hkv
          obtain ⟨⟨a, v?⟩, ha, hkv2⟩ := List.mem_filterMap.mp hkv
          obtain ⟨v, hv, rfl⟩ := Option.map_eq_some'.mp hkv2
          rfl
        next heq3 =>
          simp at hso

theorem pySerialize_json (h : Heap) (cfg : Config)
    (hs : heapJsonSafe h = true) (hdef : cfg.default = none) :
    ∀ (fuel : Nat) (s : List Nat) (r : Nat) (out : PyOut) (s' : List Nat),
      pySerialize h cfg fuel s r = (.ok out, s') → out.isJsonTree = true := by
  intro fuel
  induction fuel with
  | zero =>
    intro s r out s' hsz
    simp [pySerialize] at hsz
  | succ fuel ih =>
    intro s r out s' hsz
    have hf1 : ∀ s r out, (pySerialize h cfg fuel s r).1 = .ok out → out.isJsonTree = true := by
      intro s r out he
      rcases hp : pySerialize h cfg fuel s r with ⟨res, s2⟩
      rw [hp] at he
      exact ih s r out s2 (by rw [hp, ← he])
    cases hn : h.node r <;> simp only [pySerialize, hn] at hsz
    case pyNone => injection hsz with h1 h2; injection h1 with h3; subst h3; simp [PyOut.isJsonTree]
    case pyBool => injection hsz with h1 h2; injection h1 with h3; subst h3; simp [PyOut.isJsonTree]
    case pyInt => injection hsz with h1 h2; injection h1 with h3; subst h3; simp [PyOut.isJsonTree]
    case pyFloat => injection hsz with h1 h2; injection h1 with h3; subst h3; simp [PyOut.isJsonTree]
    case pyStr => injection hsz with h1 h2; injection h1 with h3; subst h3; simp [PyOut.isJsonTree]
    case pyDatetime => injection hsz with h1 h2; injection h1 with h3; subst h3; simp [PyOut.isJsonTree]
    case pyDate => injection hsz with h1 h2; injection h1 with h3; subst h3; simp [PyOut.isJsonTree]
    case pyTime => injection hsz with h1 h2; injection h1 with h3; subst h3; simp [PyOut.isJsonTree]
    case pyTimedelta => injection hsz with h1 h2; injection h1 with h3; subst h3; simp [PyOut.isJsonTree]
    case pyDecimal => injection hsz with h1 h2; injection h1 with h3; subst h3; simp [PyOut.isJsonTree]
    case pyUUID => injection hsz with h1 h2; injection h1 with h3; subst h3; simp [PyOut.isJsonTree]
    case pyPath => injection hsz with h1 h2; injection h1 with h3; subst h3; simp [PyOut.isJsonTree]
    case pyEnum =>
      injection hsz with h1 h2
      injection h1 with h3
      subst h3
      exact pyKey_toOut_json _
    case pyDict es =>
      exact serializeDictItems_ok_json (pySerialize h cfg fuel)
        (fun s r out s' he => ih s r out s' he) s es out
        (dict_keys_safe h hs r es hn) (by rw [hsz])
    case pyList es =>
      exact serializeListItems_ok_json (pySerialize h cfg fuel)
        (fun s r out s' he => ih s r out s' he) s es out (by rw [hsz])
    case pyTuple es =>
      exact serializeListItems_ok_json (pySerialize h cfg fuel)
        (fun s r out s' he => ih s r out s' he) s es out (by rw [hsz])
    case pySet es =>
      exact serializeListItems_ok_json (pySerialize h cfg fuel)
        (fun s r out s' he => ih s r out s' he) s es out (by rw [hsz])
    case pyFrozenset es =>
      rcases hso : serializeObject h cfg (pySerialize h cfg fuel) s r with ⟨res0, s0⟩
      rw [hso] at hsz
      rcases res0 with e | out0
      · by_cases h1 : e.isJSONSerializationError <;>
          by_cases h2 : cfg.strict <;>
          by_cases h3 : cfg.ignore_unknown <;>
          simp [applyPolicy, h1, h2, h3, hdef] at hsz
        all_goals
          rcases hsz with ⟨h4, -⟩
        all_goals subst h4
        all_goals simp [PyOut.isJsonTree]
      · simp only [applyPolicy] at hsz
        injection hsz with h1 h2
        injection h1 with h3
        subst h3
        exact serializeObject_ok_json h cfg (pySerialize h cfg fuel) hs
          (fun s r out s' he => ih s r out s' he) s r out0 (by rw [hso])
    case pyObj o =>
      rcases hso : serializeObject h cfg (pySerialize h cfg fuel) s r with ⟨res0, s0⟩
      rw [hso] at hsz
      rcases res0 with e | out0
      · by_cases h1 : e.isJSONSerializationError <;>
          by_cases h2 : cfg.strict <;>
          by_cases h3 : cfg.ignore_unknown <;>
          simp [applyPolicy, h1, h2, h3, hdef] at hsz
        all_goals
          rcases hsz with ⟨h4, -⟩
        all_goals subst h4
        all_goals simp [PyOut.isJsonTree]
      · simp only [applyPolicy] at hsz
        injection hsz with h1 h2
        injection h1 with h3
        subst h3
        exact serializeObject_ok_json h cfg (pySerialize h cfg fuel) hs
          (fun s r out s' he => ih s r out s' he) s r out0 (by rw [hso])

/-! ## The claims -/

/-- C2: the spec (and the repo's own `test_circular_reference` and the
`safe_json_dumps` docstring) say a self-referential mapping converts with
the cyclic slot rendered as a `CircularReference` marker under
`failOnCircular=false` and raises `CircularReferenceError` under
`failOnCircular=true`. The code does neither: the dict branch of
`_serialize` (serializer.py line 279) recurses into the cyclic value
without consulting `_seen` (the cycle check lives only in
`_serialize_object`, which dicts never reach), and `dumps` hands the dict
to `json.dumps` with `check_circular=False`, which recurses natively and
never calls the hook. Under every policy and every recursion budget both
paths end in `RecursionError`. -/
theorem C2_self_dict_diverges :
    (∀ (cfg : Config) (fuel : Nat) (seen : List Nat),
        (pySerialize hSelfDict cfg fuel seen 0).1 = .error .recursionErr) ∧
    (∀ (cfg : Config) (fuel : Nat),
        pyDumps hSelfDict cfg fuel 0 = .error .recursionErr) := by
  have hser : ∀ (cfg : Config) (fuel : Nat) (seen : List Nat),
      (pySerialize hSelfDict cfg fuel seen 0).1 = .error .recursionErr := by
    intro cfg fuel
    induction fuel with
    | zero => intro seen; rfl
    | succ fuel ih =>
      intro seen
      have hn : hSelfDict.node 0 = .pyDict [(.strK "self", 0)] := rfl
      simp only [pySerialize, hn]
      rcases hp : pySerialize hSelfDict cfg fuel seen 0 with ⟨res, s1⟩
      have hres : res = .error .recursionErr := by
        have := ih seen
        rw [hp] at this
        exact this
      rw [hres] at hp
      simp [serializeDictItems, mapSerializeKV, hp]
  refine ⟨hser, ?_⟩
  intro cfg fuel
  have henc : ∀ (fuel : Nat) (seen : List Nat),
      (pyEncode hSelfDict cfg stdSep true fuel seen 0).1 = .error .recursionErr := by
    intro fuel
    induction fuel with
    | zero => intro seen; rfl
    | succ fuel ih =>
      intro seen
      have hn : hSelfDict.node 0 = .pyDict [(.strK "self", 0)] := rfl
      simp only [pyEncode, hn]
      rcases hp : pyEncode hSelfDict cfg stdSep true fuel seen 0 with ⟨res, s1⟩
      have hres : res = .error .recursionErr := by
        have := ih seen
        rw [hp] at this
        exact this
      rw [hres] at hp
      simp [mapEncodeKV, hp]
  unfold pyDumps
  rcases hp : pyEncode hSelfDict cfg stdSep true fuel [] 0 with ⟨res, s1⟩
  have hres : res = .error .recursionErr := by
    have := henc fuel []
    rw [hp] at this
    exact this
  rw [hres]
  simp [PyErr.isTypeOrValueError]

/-- C4: the traversal context is left exactly as found by every
serializer call — success, policy substitution or raised error alike
(the `finally` of `_serialize_object` discards the identity added on
entry, and the circular early-return happens before the add) — so a
second top-level conversion on the same instance starts from the empty
context produced by the first and never sees a false cycle. -/
theorem C4_context_restored :
    (∀ (h : Heap) (cfg : Config) (fuel : Nat) (seen : List Nat) (r : Nat),
        (pySerialize h cfg fuel seen r).2 = seen) ∧
    (∀ (h : Heap) (cfg : Config) (fuel : Nat) (r1 r2 : Nat),
        pySerialize h cfg fuel ((pySerialize h cfg fuel [] r1).2) r2 =
          pySerialize h cfg fuel [] r2) := by
  constructor
  · intro h cfg fuel seen r
    exact pySerialize_snd h cfg fuel seen r
  · intro h cfg fuel r1 r2
    rw [pySerialize_snd]

/-- C7: a temporal instant is dispatched by the datetime rule (checked
before the date rule; in Python a datetime is also a date, as
`isDatetimeInst`/`isDateInst` record) and renders as the ISO-8601
combined string `date ++ "T" ++ time`; a plain calendar date renders as
the ISO-8601 date string; and the combined string is never equal to the
bare date string. -/
theorem C7_instant_before_date :
    (∀ (h : Heap) (cfg : Config) (fuel : Nat) (seen : List Nat) (r : Nat) (d t : String),
        h.node r = .pyDatetime d t →
        pySerialize h cfg (fuel + 1) seen r = (.ok (.vStr (d ++ "T" ++ t)), seen)) ∧
    (∀ (h : Heap) (cfg : Config) (fuel : Nat) (seen : List Nat) (r : Nat) (d : String),
        h.node r = .pyDate d →
        pySerialize h cfg (fuel + 1) seen r = (.ok (.vStr d), seen)) ∧
    (∀ n : Node, isDatetimeInst n = true → isDateInst n = true) ∧
    (∀ d t : String, d ++ "T" ++ t ≠ d) := by
  refine ⟨?_, ?_, ?_, ?_⟩
  · intro h cfg fuel seen r d t hn
    simp [pySerialize, hn, serializeDatetime]
  · intro h cfg fuel seen r d hn
    simp [pySerialize, hn, serializeDate]
  · intro n hn
    cases n <;> simp_all [isDatetimeInst, isDateInst]
  · intro d t hcontra
    have hlen := congrArg String.length hcontra
    have hT : ("T" : String).length = 1 := rfl
    simp [String.length_append, hT] at hlen
    omega

/-- C7 witness: the instant `datetime(2024, 1, 1, 12, 30, 45)` renders as
the combined ISO string and `date(2024, 1, 1)` as the date string. -/
theorem C7_witness :
    pySerialize hDt cfgD (4 + 1) [] 0 =
      (.ok (.vStr ("2024-01-01" ++ "T" ++ "12:30:45")), []) ∧
    pySerialize hDt cfgD (4 + 1) [] 1 = (.ok (.vStr "2024-01-01"), []) :=
  ⟨C7_instant_before_date.1 hDt cfgD 4 [] 0 "2024-01-01" "12:30:45" (by rfl),
   C7_instant_before_date.2.1 hDt cfgD 4 [] 1 "2024-01-01" (by rfl)⟩

/-- C10: `dumps` either returns a string, or raises the uncatchable
`RecursionError`, or catches the `TypeError`/`ValueError` that escaped
the encoder — every `JSONSerializationError` is a `TypeError`, its
`CircularReferenceError` subclass included — and re-raises a fresh base
`JSONSerializationError` carrying the top-level input `r` and the
message `str(e)`; it never re-raises `CircularReferenceError` or
`UnsupportedTypeError`, and the attached object is never the offending
nested value. -/
theorem C10_dumps_contract :
    ∀ (h : Heap) (cfg : Config) (fuel : Nat) (r : Nat),
      (∃ s, pyDumps h cfg fuel r = .ok s) ∨
      pyDumps h cfg fuel r = .error .recursionErr ∨
      (∃ m, pyDumps h cfg fuel r = .error (.serializationErr r (some m))) := by
  intro h cfg fuel r
  unfold pyDumps
  rcases hp : pyEncode h cfg stdSep true fuel [] r with ⟨res, s1⟩
  rcases res with e | s
  · cases e
    case recursionErr =>
      right; left
      simp [PyErr.isTypeOrValueError]
    case serializationErr o m =>
      right; right
      exact ⟨errMessage h (.serializationErr o m), by simp [PyErr.isTypeOrValueError]⟩
    case circularErr o pth =>
      right; right
      exact ⟨errMessage h (.circularErr o pth), by simp [PyErr.isTypeOrValueError]⟩
    case unsupportedErr o hint =>
      right; right
      exact ⟨errMessage h (.unsupportedErr o hint), by simp [PyErr.isTypeOrValueError]⟩
    case typeErr m =>
      right; right
      exact ⟨errMessage h (.typeErr m), by simp [PyErr.isTypeOrValueError]⟩
  · left
    exact ⟨s, by simp⟩

/-- C5 (amended): an object with no `to_dict`, no `__dict__` and no
`__slots__` makes `_serialize_object` raise the base
`JSONSerializationError` — not the `UnsupportedTypeError` subclass, which
serializer.py never raises — and the policy chain then re-raises it under
`strict`, substitutes null under `ignoreUnknown`, and re-raises it when
neither flag nor a fallback is configured. -/
theorem C5_no_capability :
    ∀ (h : Heap) (cfg : Config) (fuel : Nat) (seen : List Nat) (r : Nat) (o : ObjDesc),
      h.node r = .pyObj o → o.toDict = none → o.dictAttrs = none → o.slots = none →
      r ∉ seen →
      (cfg.strict = true →
        pySerialize h cfg (fuel + 1) seen r = (.error (.serializationErr r none), seen)) ∧
      (cfg.strict = false → cfg.ignore_unknown = true →
        pySerialize h cfg (fuel + 1) seen r = (.ok .vNone, seen)) ∧
      (cfg.strict = false → cfg.ignore_unknown = false → cfg.default = none →
        pySerialize h cfg (fuel + 1) seen r = (.error (.serializationErr r none), seen)) := by
  intro h cfg fuel seen r o hn htd hdd hsl hmem
  have hso : serializeObject h cfg (pySerialize h cfg fuel) seen r
      = (.error (.serializationErr r none), seen) := by
    simp [serializeObject, hmem, hn, toDictCap, dunderDictCap, slotsCap, htd, hdd, hsl]
  refine ⟨?_, ?_, ?_⟩
  · intro hstrict
    simp [pySerialize, hn, hso, applyPolicy, hstrict, PyErr.isJSONSerializationError]
  · intro hstrict hignore
    simp [pySerialize, hn, hso, applyPolicy, hstrict, hignore, PyErr.isJSONSerializationError]
  · intro hstrict hignore hdef
    simp [pySerialize, hn, hso, applyPolicy, hstrict, hignore, hdef,
      PyErr.isJSONSerializationError]

/-- C5 witness: a `CustomType()` instance exposing nothing, under
`strict`, `ignore_unknown`, and the default policy. -/
theorem C5_witness :
    pySerialize hNoCap cfgStrict (4 + 1) [] 0 = (.error (.serializationErr 0 none), []) ∧
    pySerialize hNoCap cfgIgnore (4 + 1) [] 0 = (.ok .vNone, []) ∧
    pySerialize hNoCap cfgD (4 + 1) [] 0 = (.error (.serializationErr 0 none), []) :=
  ⟨(C5_no_capability hNoCap cfgStrict 4 [] 0 ⟨"CustomType", none, none, none⟩
      rfl rfl rfl rfl (by simp)).1 rfl,
   (C5_no_capability hNoCap cfgIgnore 4 [] 0 ⟨"CustomType", none, none, none⟩
      rfl rfl rfl rfl (by simp)).2.1 rfl rfl,
   (C5_no_capability hNoCap cfgD 4 [] 0 ⟨"CustomType", none, none, none⟩
      rfl rfl rfl rfl (by simp)).2.2 rfl rfl rfl⟩

/-- C5 counterexample: under `strict=True` the raised error is the base
`JSONSerializationError`, not the `UnsupportedTypeError` the claim names
(serializer.py line 222 raises `JSONSerializationError(obj)`;
`UnsupportedTypeError` is declared in exceptions.py lines 50-67 but never
raised). -/
theorem C5_cex :
    raisedUnsupported ((pySerialize hNoCap cfgStrict 5 [] 0).1) = false ∧
    (pySerialize hNoCap cfgStrict 5 [] 0).1 = .error (.serializationErr 0 none) :=
  ⟨rfl, rfl⟩

/-- C3 (amended): at the generic-object rule, a value is flagged as
circular exactly when its identity is in the traversal context at entry.
When flagged under `failOnCircular=true` the raised `CircularReferenceError`
(whose message carries the runtime type name) is fed to the policy chain
of the same `_serialize` call: it propagates only under `strict` or when
neither `ignoreUnknown` nor a fallback is configured; `ignoreUnknown`
turns the flagged slot into null and a fallback replaces it with its own
result. When flagged under `failOnCircular=false` the result is exactly
the string `"<CircularReference {TypeName}>"` with no further recursion.
An object reachable from two sibling branches is not flagged and is
serialized twice. -/
theorem C3_cycle_flagging :
    (∀ (h : Heap) (cfg : Config) (fuel : Nat) (seen : List Nat) (r : Nat) (o : ObjDesc),
        h.node r = .pyObj o → r ∈ seen →
        pySerialize h cfg (fuel + 1) seen r =
          (if cfg.fail_on_circular then
            (if cfg.strict then .error (.circularErr r "")
             else if cfg.ignore_unknown then .ok .vNone
             else
               match cfg.default with
               | some fb => .ok (fb r)
               | none => .error (.circularErr r ""))
           else .ok (.vStr ("<CircularReference " ++ o.typeName ++ ">")), seen)) ∧
    (∀ (h : Heap) (r : Nat),
        errMessage h (.circularErr r "") =
          "Circular reference detected for object of type " ++ (h.node r).pyTypeName) ∧
    (pySerialize hSib cfgD 5 [] 0 =
      (.ok (.vList [.vDict [(.strK "a", .vInt 5)], .vDict [(.strK "a", .vInt 5)]]), [])) := by
  refine ⟨?_, ?_, by rfl⟩
  · intro h cfg fuel seen r o hn hmem
    have hso : serializeObject h cfg (pySerialize h cfg fuel) seen r
        = (if cfg.fail_on_circular then (.error (.circularErr r ""), seen)
           else (.ok (.vStr ("<CircularReference " ++ o.typeName ++ ">")), seen)) := by
      by_cases hc : cfg.fail_on_circular <;>
        simp [serializeObject, hmem, hc, hn, Node.pyTypeName]
    by_cases hc : cfg.fail_on_circular
    · rw [if_pos hc] at hso
      by_cases h2 : cfg.strict <;> by_cases h3 : cfg.ignore_unknown <;>
        rcases hd : cfg.default with _ | fb <;>
        simp [pySerialize, hn, hso, applyPolicy, hc, h2, h3, hd,
          PyErr.isJSONSerializationError]
    · rw [if_neg hc] at hso
      simp [pySerialize, hn, hso, applyPolicy, hc]
  · intro h r
    simp [errMessage]

/-- C3 witness: the self-referential object re-encountered on the active
path under `fail_on_circular=True` with no other policy flag raises
`CircularReferenceError`, and the flagged call leaves the context
unchanged. -/
theorem C3_witness :
    pySerialize hSelfObj cfgCirc (4 + 1) [0] 0 = (.error (.circularErr 0 ""), [0]) := by
  have := C3_cycle_flagging.1 hSelfObj cfgCirc 4 [0] 0
    ⟨"A", none, some [("me", 0)], none⟩ rfl (by simp)
  simpa [cfgCirc] using this

/-- C3 counterexample: with `failOnCircular=true` but a fallback
configured (`strict` and `ignoreUnknown` unset), the conversion of a
self-referential object does not fail with `CircularReferenceError` as
the claim states: the chain replaces the flagged slot with the fallback's
result and the conversion succeeds. -/
theorem C3_cex :
    (pySerialize hSelfObj cfgCircFallback 5 [] 0).1 =
      .ok (.vDict [(.strK "me", .vStr "from-fallback")]) ∧
    raisedCircular ((pySerialize hSelfObj cfgCircFallback 5 [] 0).1) = false :=
  ⟨rfl, rfl⟩

/-- C1 (amended): the fallback chain of `_serialize` fires whenever the
generic-object rule yields any `JSONSerializationError` — the base error
and the `CircularReferenceError` subclass alike, since the handler
catches the base class — and then exactly one branch applies in the fixed
order strict / ignoreUnknown / fallback / re-raise, the fallback being
invoked with the original value and its result used verbatim; a
successful object result passes through untouched, and a
`RecursionError` is never intercepted. A `CircularReference` failure
under `failOnCircular=true` therefore propagates unchanged only under
`strict` or when neither `ignoreUnknown` nor a fallback is configured. -/
theorem C1_policy_chain :
    (∀ (h : Heap) (cfg : Config) (fuel : Nat) (seen s0 : List Nat) (r : Nat) (out : PyOut),
        objGate (h.node r) = true →
        serializeObject h cfg (pySerialize h cfg fuel) seen r = (.ok out, s0) →
        pySerialize h cfg (fuel + 1) seen r = (.ok out, s0)) ∧
    (∀ (h : Heap) (cfg : Config) (fuel : Nat) (seen s0 : List Nat) (r : Nat) (e : PyErr),
        objGate (h.node r) = true →
        serializeObject h cfg (pySerialize h cfg fuel) seen r = (.error e, s0) →
        e.isJSONSerializationError = true → cfg.strict = true →
        pySerialize h cfg (fuel + 1) seen r = (.error e, s0)) ∧
    (∀ (h : Heap) (cfg : Config) (fuel : Nat) (seen s0 : List Nat) (r : Nat) (e : PyErr),
        objGate (h.node r) = true →
        serializeObject h cfg (pySerialize h cfg fuel) seen r = (.error e, s0) →
        e.isJSONSerializationError = true → cfg.strict = false →
        cfg.ignore_unknown = true →
        pySerialize h cfg (fuel + 1) seen r = (.ok .vNone, s0)) ∧
    (∀ (h : Heap) (cfg : Config) (fuel : Nat) (seen s0 : List Nat) (r : Nat) (e : PyErr)
        (fb : Nat → PyOut),
        objGate (h.node r) = true →
        serializeObject h cfg (pySerialize h cfg fuel) seen r = (.error e, s0) →
        e.isJSONSerializationError = true → cfg.strict = false →
        cfg.ignore_unknown = false → cfg.default = some fb →
        pySerialize h cfg (fuel + 1) seen r = (.ok (fb r), s0)) ∧
    (∀ (h : Heap) (cfg : Config) (fuel : Nat) (seen s0 : List Nat) (r : Nat) (e : PyErr),
        objGate (h.node r) = true →
        serializeObject h cfg (pySerialize h cfg fuel) seen r = (.error e, s0) →
        e.isJSONSerializationError = true → cfg.strict = false →
        cfg.ignore_unknown = false → cfg.default = none →
        pySerialize h cfg (fuel + 1) seen r = (.error e, s0)) ∧
    (∀ (h : Heap) (cfg : Config) (fuel : Nat) (seen s0 : List Nat) (r : Nat),
        objGate (h.node r) = true →
        serializeObject h cfg (pySerialize h cfg fuel) seen r = (.error .recursionErr, s0) →
        pySerialize h cfg (fuel + 1) seen r = (.error .recursionErr, s0)) := by
  refine ⟨?_, ?_, ?_, ?_, ?_, ?_⟩
  · intro h cfg fuel seen s0 r out hg hso
    cases hn : h.node r <;> rw [hn] at hg <;> simp only [objGate] at hg
    case pyFrozenset => simp [pySerialize, hn, hso, applyPolicy]
    case pyObj => simp [pySerialize, hn, hso, applyPolicy]
    all_goals exact absurd hg Bool.false_ne_true
  · intro h cfg fuel seen s0 r e hg hso hj h2
    cases hn : h.node r <;> rw [hn] at hg <;> simp only [objGate] at hg
    case pyFrozenset => simp [pySerialize, hn, hso, applyPolicy, hj, h2]
    case pyObj => simp [pySerialize, hn, hso, applyPolicy, hj, h2]
    all_goals exact absurd hg Bool.false_ne_true
  · intro h cfg fuel seen s0 r e hg hso hj h2 h3
    cases hn : h.node r <;> rw [hn] at hg <;> simp only [objGate] at hg
    case pyFrozenset => simp [pySerialize, hn, hso, applyPolicy, hj, h2, h3]
    case pyObj => simp [pySerialize, hn, hso, applyPolicy, hj, h2, h3]
    all_goals exact absurd hg Bool.false_ne_true
  · intro h cfg fuel seen s0 r e fb hg hso hj h2 h3 hd
    cases hn : h.node r <;> rw [hn] at hg <;> simp only [objGate] at hg
    case pyFrozenset => simp [pySerialize, hn, hso, applyPolicy, hj, h2, h3, hd]
    case pyObj => simp [pySerialize, hn, hso, applyPolicy, hj, h2, h3, hd]
    all_goals exact absurd hg Bool.false_ne_true
  · intro h cfg fuel seen s0 r e hg hso hj h2 h3 hd
    cases hn : h.node r <;> rw [hn] at hg <;> simp only [objGate] at hg
    case pyFrozenset => simp [pySerialize, hn, hso, applyPolicy, hj, h2, h3, hd]
    case pyObj => simp [pySerialize, hn, hso, applyPolicy, hj, h2, h3, hd]
    all_goals exact absurd hg Bool.false_ne_true
  · intro h cfg fuel seen s0 r hg hso
    cases hn : h.node r <;> rw [hn] at hg <;> simp only [objGate] at hg
    case pyFrozenset =>
      simp [pySerialize, hn, hso, applyPolicy, PyErr.isJSONSerializationError]
    case pyObj =>
      simp [pySerialize, hn, hso, applyPolicy, PyErr.isJSONSerializationError]
    all_goals exact absurd hg Bool.false_ne_true

/-- C1 witness: re-encountering the self-referential object on the
active path under `fail_on_circular=True` with `ignore_unknown=True`
raises `CircularReferenceError` inside the object rule, and the chain of
the same call substitutes null for it. -/
theorem C1_witness :
    pySerialize hSelfObj cfgCircIgnore (4 + 1) [0] 0 = (.ok .vNone, [0]) :=
  C1_policy_chain.2.2.1 hSelfObj cfgCircIgnore 4 [0] [0] 0 (.circularErr 0 "")
    (by rfl) (by rfl) rfl rfl rfl

/-- C1 counterexample: with `failOnCircular=true` and `ignoreUnknown=true`
the `CircularReferenceError` raised for the self-referential object is
not propagated to the caller as the claim states: it is caught by the
`except JSONSerializationError` handler (the subclass is an instance of
the base) and replaced by null, so the conversion succeeds. -/
theorem C1_cex :
    (pySerialize hSelfObj cfgCircIgnore 5 [] 0).1 = .ok (.vDict [(.strK "me", .vNone)]) ∧
    raisedCircular ((pySerialize hSelfObj cfgCircIgnore 5 [] 0).1) = false :=
  ⟨rfl, rfl⟩

/-- C6 (amended): provided every mapping key in the graph is a string,
every `to_dict()` capability returns a mapping (or a scalar), and no
fallback function is configured, every value a successful conversion
returns lies in the JSON-tree universe. (Without these side conditions
the code lets raw values escape: see the counterexample.) -/
theorem C6_json_universe :
    ∀ (h : Heap) (cfg : Config) (fuel : Nat) (seen s' : List Nat) (r : Nat) (out : PyOut),
      heapJsonSafe h = true → cfg.default = none →
      pySerialize h cfg fuel seen r = (.ok out, s') →
      out.isJsonTree = true :=
  fun h cfg fuel seen s' r out hs hdef hp =>
    pySerialize_json h cfg hs hdef fuel seen r out s' hp

/-- C6 witness: the safe graph `{"x": 3}` converts to a JSON-tree
value. -/
theorem C6_witness :
    PyOut.isJsonTree (.vDict [(.strK "x", .vInt 3)]) = true :=
  C6_json_universe hSafe cfgD 5 [] [] 0 (.vDict [(.strK "x", .vInt 3)])
    (by rfl) rfl (by rfl)

/-- C6 counterexample: an object whose `to_dict()` returns a datetime —
not a mapping — converts successfully, and the datetime itself is
returned verbatim (serializer.py line 208): a raw domain value escapes to
the encoder, so the result of this successful top-level conversion is not
in the JSON-tree universe. -/
theorem C6_cex :
    (pySerialize hToDictRaw cfgD 5 [] 0).1 = .ok (.vRaw 1) ∧
    PyOut.isJsonTree (.vRaw 1) = false ∧
    hToDictRaw.node 1 = .pyDatetime "2024-01-01" "12:00:00" :=
  ⟨rfl, by simp [PyOut.isJsonTree], rfl⟩

/-- C9 (amended): for a mutable set value, conversion returns an ordered
sequence whose entries are exactly the recursive conversions of the
stored elements (in the model's iteration order), so its element set
equals the set of converted elements while the order tracks the
unspecified iteration order — two representations of the same set that
differ only by a permutation yield the same elements in different
positions. A frozen set, however, is not an instance of `set` in Python:
it falls through to the generic-object rule, exposes no capability, and
under the default policy the conversion raises the base serialization
error instead of returning a sequence. -/
theorem C9_set_rule :
    (∀ (h : Heap) (cfg : Config) (fuel : Nat) (seen s' : List Nat) (r : Nat)
        (es : List Nat) (outs : List PyOut),
        h.node r = .pySet es →
        pySerialize h cfg (fuel + 1) seen r = (.ok (.vList outs), s') →
        List.map Except.ok outs = es.map fun e => (pySerialize h cfg fuel seen e).1) ∧
    (∀ (h : Heap) (cfg : Config) (fuel : Nat) (seen s' : List Nat) (r : Nat)
        (es : List Nat) (out : PyOut),
        h.node r = .pySet es →
        pySerialize h cfg (fuel + 1) seen r = (.ok out, s') → out.isList = true) ∧
    (pySerialize hSets cfgD 5 [] 0 = (.ok (.vList [.vInt 10, .vInt 20, .vInt 30]), []) ∧
     pySerialize hSets cfgD 5 [] 1 = (.ok (.vList [.vInt 30, .vInt 10, .vInt 20]), []) ∧
     (∀ x : PyOut, x ∈ [PyOut.vInt 10, .vInt 20, .vInt 30] ↔
        x ∈ [PyOut.vInt 30, .vInt 10, .vInt 20]) ∧
     [PyOut.vInt 10, .vInt 20, .vInt 30] ≠ [PyOut.vInt 30, .vInt 10, .vInt 20]) ∧
    (∀ (h : Heap) (cfg : Config) (fuel : Nat) (seen : List Nat) (r : Nat)
        (es : List Nat),
        h.node r = .pyFrozenset es → r ∉ seen → cfg.strict = false →
        cfg.ignore_unknown = false → cfg.default = none →
        pySerialize h cfg (fuel + 1) seen r = (.error (.serializationErr r none), seen)) := by
  refine ⟨?_, ?_, ⟨by rfl, by rfl, ?_, ?_⟩, ?_⟩
  · intro h cfg fuel seen s' r es outs hn hp
    simp only [pySerialize, hn, serializeListItems] at hp
    split at hp
    next e1 s1 heq => simp at hp
    next outs0 s1 heq =>
      injection hp with h1 h2
      injection h1 with h3
      injection h3 with h4
      subst h4
      exact mapSerialize_ok_map (pySerialize h cfg fuel) (pySerialize_snd h cfg fuel)
        seen es outs0 s1 heq
  · intro h cfg fuel seen s' r es out hn hp
    simp only [pySerialize, hn, serializeListItems] at hp
    split at hp
    next e1 s1 heq => simp at hp
    next outs0 s1 heq =>
      injection hp with h1 h2
      injection h1 with h3
      subst h3
      rfl
  · intro x
    simp only [List.mem_cons, List.not_mem_nil, or_false]
    tauto
  · intro hEq
    simp at hEq
  · intro h cfg fuel seen r es hn hmem h2 h3 hd
    have hso : serializeObject h cfg (pySerialize h cfg fuel) seen r
        = (.error (.serializationErr r none), seen) := by
      simp [serializeObject, hmem, hn, toDictCap, dunderDictCap, slotsCap]
    simp [pySerialize, hn, hso, applyPolicy, h2, h3, hd, PyErr.isJSONSerializationError]

/-- C9 witness: the set stored as `[2, 3, 4]` (the references of 10, 20,
30) converts to the list of the element-wise conversions. -/
theorem C9_witness :
    List.map Except.ok [PyOut.vInt 10, .vInt 20, .vInt 30] =
      [2, 3, 4].map fun e => (pySerialize hSets cfgD 4 [] e).1 :=
  C9_set_rule.1 hSets cfgD 4 [] [] 0 [2, 3, 4] [.vInt 10, .vInt 20, .vInt 30]
    (by rfl) (by rfl)

/-- C9 counterexample: `frozenset({1, 2, 3})` — a frozen/immutable
unordered collection of convertible elements — does not convert to a
sequence as the claim states: `isinstance(obj, set)` is false for a
frozenset, so it falls through to the generic-object rule, exposes no
capability, and the conversion raises the base serialization error under
the default policy. -/
theorem C9_cex :
    (pySerialize hFrozen cfgD 5 [] 0).1 = .error (.serializationErr 0 none) ∧
    ((pySerialize hFrozen cfgD 5 [] 0).1 = .ok (.vList [.vInt 1, .vInt 2, .vInt 3]) →
      False) :=
  ⟨rfl, by
    intro hEq
    rw [show (pySerialize hFrozen cfgD 5 [] 0).1 =
        .error (.serializationErr 0 none) from rfl] at hEq
    simp at hEq⟩

/-- C8 (amended): backend selection alone decides the output path.
Automatic selection equals the explicit baseline when orjson is absent,
and equals the explicit orjson profile when orjson is present — but in
the latter case the output is an orjson `bytes` value, which is never
byte-identical to the baseline's `str` (see the counterexample), so the
claimed cross-backend byte-identity only holds in orjson-free
environments. -/
theorem C8_backend_selection :
    (∀ (h : Heap) (cfg : Config) (fuel r : Nat) (use_builtin : Bool),
        adapterDumps false none use_builtin h cfg fuel r =
          adapterDumps false (some "json") use_builtin h cfg fuel r) ∧
    (∀ (h : Heap) (cfg : Config) (fuel r : Nat) (use_builtin : Bool),
        adapterDumps true none use_builtin h cfg fuel r =
          adapterDumps true (some "orjson") use_builtin h cfg fuel r) := by
  constructor <;> intro h cfg fuel r ub <;> rfl

/-- C8 counterexample: with orjson installed, automatic selection with
`use_builtin=False` encodes `{"a": 1, "b": 2}` as compact `bytes` while
the explicit baseline profile returns a `str` with the standard library's
default separators; the outputs are not byte-identical (nor even of the
same type). -/
theorem C8_cex :
    adapterDumps true none false hAB cfgD 5 0 =
      .ok (.ok (.binary "\x7b\"a\":1,\"b\":2\x7d")) ∧
    adapterDumps true (some "json") false hAB cfgD 5 0 =
      .ok (.ok (.text "\x7b\"a\": 1, \"b\": 2\x7d")) ∧
    adapterDumps true none false hAB cfgD 5 0 ≠
      adapterDumps true (some "json") false hAB cfgD 5 0 := by
  refine ⟨by rfl, by rfl, ?_⟩
  intro hEq
  rw [show adapterDumps true none false hAB cfgD 5 0 =
      .ok (.ok (.binary "\x7b\"a\":1,\"b\":2\x7d")) from rfl,
    show adapterDumps true (some "json") false hAB cfgD 5 0 =
      .ok (.ok (.text "\x7b\"a\": 1, \"b\": 2\x7d")) from rfl] at hEq
  simp at hEq

end CellsJson
